import Mathlib

set_option maxRecDepth 4000

namespace SdnTutorials

/-- Python-like dynamic values: the dictionaries/lists/strings that the
tutorial's NetworkPolicy code manipulates. Dictionaries are ordered
association lists with string keys (all keys used by the code are strings),
mirroring Python's insertion-ordered dicts. -/
inductive Val : Type where
  | vStr (s : String)
  | vInt (n : Int)
  | vBool (b : Bool)
  | vNone
  | vList (xs : List Val)
  | vDict (kvs : List (String × Val))

/-- Python exception values that the embedded code can raise. -/
inductive PyExc : Type where
  | configValidationError (msg : String)
  | valueError (msg : String)
  | keyError (k : String)
  | typeError (msg : String)
  | attributeError (msg : String)
deriving DecidableEq

/-- Whether `needle` occurs as a contiguous run inside `hay`
(Python substring containment on character lists). -/
def charsInfix (needle : List Char) : List Char → Bool
  | [] => needle.isEmpty
  | c :: t => needle.isPrefixOf (c :: t) || charsInfix needle t

/-- Python substring containment `sub in s`. -/
def strContainsSub (s sub : String) : Bool :=
  charsInfix sub.toList s.toList

/-- Python truthiness of a value (`bool(v)`). -/
def truthy : Val → Bool
  | .vStr s => s.length != 0
  | .vInt n => n != 0
  | .vBool b => b
  | .vNone => false
  | .vList xs => !xs.isEmpty
  | .vDict kvs => !kvs.isEmpty

/-- Lookup in an ordered association-list dictionary. -/
def dictLookup : List (String × Val) → String → Option Val
  | [], _ => none
  | (k, v) :: rest, key => if k = key then some v else dictLookup rest key

/-- Python dict item assignment: replace in place if the key exists,
otherwise append at the end (insertion order). -/
def dictInsert : List (String × Val) → String → Val → List (String × Val)
  | [], key, v => [(key, v)]
  | (k, w) :: rest, key, v =>
    if k = key then (k, v) :: rest else (k, w) :: dictInsert rest key v

mutual
/-- Python equality `==` on the modelled values. Cross-type comparisons are
False except bool/int (True == 1). Dict comparison is modelled structurally;
the embedded code never compares two dicts with `==`. -/
def valEq : Val → Val → Bool
  | .vStr s, .vStr t => s == t
  | .vInt m, .vInt n => m == n
  | .vBool a, .vBool b => a == b
  | .vBool a, .vInt n => (if a then (1 : Int) else 0) == n
  | .vInt n, .vBool a => n == (if a then (1 : Int) else 0)
  | .vNone, .vNone => true
  | .vList xs, .vList ys => valEqList xs ys
  | .vDict xs, .vDict ys => valEqDict xs ys
  | _, _ => false

def valEqList : List Val → List Val → Bool
  | [], [] => true
  | x :: xs, y :: ys => valEq x y && valEqList xs ys
  | _, _ => false

def valEqDict : List (String × Val) → List (String × Val) → Bool
  | [], [] => true
  | (k, x) :: xs, (l, y) :: ys => k == l && valEq x y && valEqDict xs ys
  | _, _ => false
end

/-- Python membership test `needle in container`. Dicts test keys, lists test
element equality, strings test substring; other right operands raise
TypeError, and unhashable needles raise TypeError against dicts. -/
def pyIn (needle container : Val) : Except PyExc Bool :=
  match container with
  | .vDict kvs =>
    match needle with
    | .vStr s => .ok (kvs.any (fun kv => kv.1 == s))
    | .vList _ => .error (.typeError "unhashable type: list")
    | .vDict _ => .error (.typeError "unhashable type: dict")
    | _ => .ok false
  | .vList xs => .ok (xs.any (fun x => valEq needle x))
  | .vStr s =>
    match needle with
    | .vStr sub => .ok (strContainsSub s sub)
    | _ => .error (.typeError "in <string> requires string as left operand")
  | _ => .error (.typeError "argument is not iterable")

/-- Python subscript `container[key]` with a string key. -/
def subscr (container : Val) (key : String) : Except PyExc Val :=
  match container with
  | .vDict kvs =>
    match dictLookup kvs key with
    | some v => .ok v
    | none => .error (.keyError key)
  | .vStr _ => .error (.typeError "string indices must be integers")
  | .vList _ => .error (.typeError "list indices must be integers")
  | _ => .error (.typeError "object is not subscriptable")

/-- Python `container.get(key)` (dict method, default None). -/
def dictGet (container : Val) (key : String) : Except PyExc Val :=
  match container with
  | .vDict kvs =>
    match dictLookup kvs key with
    | some v => .ok v
    | none => .ok .vNone
  | _ => .error (.attributeError "object has no attribute get")

/-- Python `container.get(key, default)`. -/
def dictGetD (container : Val) (key : String) (dflt : Val) : Except PyExc Val :=
  match container with
  | .vDict kvs =>
    match dictLookup kvs key with
    | some v => .ok v
    | none => .ok dflt
  | _ => .error (.attributeError "object has no attribute get")

/-- Python iteration over a value (`for x in v`): lists yield elements,
strings yield one-character strings, dicts yield keys; other values raise
TypeError. -/
def toIter : Val → Except PyExc (List Val)
  | .vList xs => .ok xs
  | .vStr s => .ok (s.toList.map (fun c => .vStr (String.mk [c])))
  | .vDict kvs => .ok (kvs.map (fun kv => .vStr kv.1))
  | _ => .error (.typeError "argument is not iterable")

mutual
/-- Python `repr` of a value, as interpolated by f-strings via `str` for
containers. -/
def pyRepr : Val → String
  | .vStr s => "\x27" ++ s ++ "\x27"
  | .vInt n => toString n
  | .vBool b => if b then "True" else "False"
  | .vNone => "None"
  | .vList xs => "[" ++ pyReprList xs ++ "]"
  | .vDict kvs => "\x7b" ++ pyReprDict kvs ++ "\x7d"

def pyReprList : List Val → String
  | [] => ""
  | [x] => pyRepr x
  | x :: y :: rest => pyRepr x ++ ", " ++ pyReprList (y :: rest)

def pyReprDict : List (String × Val) → String
  | [] => ""
  | [(k, v)] => "\x27" ++ k ++ "\x27: " ++ pyRepr v
  | (k, v) :: p :: rest => "\x27" ++ k ++ "\x27: " ++ pyRepr v ++ ", " ++ pyReprDict (p :: rest)
end

/-- Python `str` of a value (used by f-string interpolation). -/
def pyStr : Val → String
  | .vStr s => s
  | v => pyRepr v

/-- Python `str` of a list of Python strings, e.g.
`str(["a", "b"])` (used for the missing-fields message). -/
def pyStrListRepr (xs : List String) : String :=
  "[" ++ String.intercalate ", " (xs.map (fun s => "\x27" ++ s ++ "\x27")) ++ "]"

/-- Follow a path of string keys through nested dictionaries. -/
def lookupPath : Val → List String → Option Val
  | v, [] => some v
  | .vDict kvs, k :: rest =>
    match dictLookup kvs k with
    | some v => lookupPath v rest
    | none => none
  | _, _ :: _ => none

namespace ConfigManager

/- Embedding of pytest_yaml_tutorial/src/config_manager.py,
class NetworkPolicyConfigManager. -/

/-- _setup_validation_rules: required top-level fields (line 34). -/
def required_fields : List String := ["apiVersion", "kind", "metadata", "spec"]

/-- _setup_validation_rules: the accepted apiVersion literal (line 35). -/
def api_version : String := "networking.k8s.io/v1"

/-- _setup_validation_rules: the accepted kind literal (line 36). -/
def kindRule : String := "NetworkPolicy"

/-- _setup_validation_rules: required metadata fields (line 37). -/
def required_metadata : List String := ["name"]

/-- _setup_validation_rules: required spec fields (line 38). -/
def required_spec : List String := ["podSelector"]

/-- _setup_validation_rules: the accepted policyTypes values (line 39). -/
def valid_policy_types : List String := ["Ingress", "Egress"]

/-- The loop at validate_network_policy lines 109-112: collect the required
fields missing from the config, in order. -/
def missingFields (config : Val) : List String → Except PyExc (List String)
  | [] => .ok []
  | f :: rest => do
    let b ← pyIn (.vStr f) config
    let others ← missingFields config rest
    .ok (if b then others else f :: others)

/-- The loops at lines 133-135 and 139-141: raise on the first required field
absent from the container, with message "Missing <path><field>". -/
def checkRequired (container : Val) (path : String) : List String → Except PyExc Unit
  | [] => .ok ()
  | f :: rest => do
    let b ← pyIn (.vStr f) container
    if b then checkRequired container path rest
    else throw (.configValidationError ("Missing " ++ path ++ f))

/-- The loop at lines 145-147: raise on the first policyTypes entry that is
not one of the accepted values. -/
def checkPolicyTypes : List Val → Except PyExc Unit
  | [] => .ok ()
  | pt :: rest =>
    if valid_policy_types.any (fun t => valEq pt (.vStr t)) then checkPolicyTypes rest
    else throw (.configValidationError ("Invalid policyType: " ++ pyStr pt))

/-- Embedding of NetworkPolicyConfigManager.validate_network_policy
(config_manager.py lines 95-150). Returns `.ok true` on success and
`.error (.configValidationError msg)` on a failed check; a stray Python
exception (e.g. TypeError for a non-dict input at the membership tests)
also surfaces as `.error`. The final subscript models the evaluation of
`metadata['name']` in the success-path log call at line 149. -/
def validate_network_policy (config : Val) : Except PyExc Bool := do
  let missing ← missingFields config required_fields
  if missing ≠ [] then
    throw (.configValidationError ("Missing required fields: " ++ pyStrListRepr missing))
  let apiV ← subscr config "apiVersion"
  if ! valEq apiV (.vStr api_version) then
    throw (.configValidationError
      ("Invalid apiVersion: " ++ pyStr apiV ++ ", expected: " ++ api_version))
  let kindV ← subscr config "kind"
  if ! valEq kindV (.vStr kindRule) then
    throw (.configValidationError
      ("Invalid kind: " ++ pyStr kindV ++ ", expected: " ++ kindRule))
  let metadata ← subscr config "metadata"
  checkRequired metadata "metadata." required_metadata
  let spec ← subscr config "spec"
  checkRequired spec "spec." required_spec
  let hasPT ← pyIn (.vStr "policyTypes") spec
  if hasPT then do
    let pts ← subscr spec "policyTypes"
    let items ← toIter pts
    checkPolicyTypes items
  let _ ← subscr metadata "name"
  pure true

/-- Embedding of generate_basic_policy (lines 152-186): builds the basic
NetworkPolicy dictionary with both policy types. -/
def generate_basic_policy (name namespc app_label : String) : Val :=
  .vDict [
    ("apiVersion", .vStr "networking.k8s.io/v1"),
    ("kind", .vStr "NetworkPolicy"),
    ("metadata", .vDict [
      ("name", .vStr name),
      ("namespace", .vStr namespc),
      ("labels", .vDict [("generated-by", .vStr "config-manager")])]),
    ("spec", .vDict [
      ("podSelector", .vDict [("matchLabels", .vDict [("app", .vStr app_label)])]),
      ("policyTypes", .vList [.vStr "Ingress", .vStr "Egress"])])]

/-- The rule dictionary built at add_ingress_rule lines 205-207:
`{'from': from_selectors}` plus a `ports` entry only when the `ports`
argument is truthy (`if ports:`), i.e. supplied and non-empty. -/
def ingressRule (from_selectors : List Val) (ports : Option (List Val)) : Val :=
  .vDict (("from", Val.vList from_selectors) ::
    (match ports with
     | some ps => if ps.isEmpty then [] else [("ports", Val.vList ps)]
     | none => []))

/-- State of add_ingress_rule after line 209 has stored the appended ingress
list; lines 212-213 then consult and possibly extend spec['policyTypes']. -/
def afterIngressAppend (kvs skvs : List (String × Val))
    (newRules : List Val) : Val × Option PyExc :=
  let skvs2 := dictInsert skvs "ingress" (.vList newRules)
  let config2 := Val.vDict (dictInsert kvs "spec" (.vDict skvs2))
  match dictLookup skvs2 "policyTypes" with
  | none => (config2, some (.keyError "policyTypes"))
  | some ptsVal =>
    match pyIn (.vStr "Ingress") ptsVal with
    | .error e => (config2, some e)
    | .ok true => (config2, none)
    | .ok false =>
      match ptsVal with
      | Val.vList pts =>
        (Val.vDict (dictInsert kvs "spec"
          (.vDict (dictInsert skvs2 "policyTypes" (.vList (pts ++ [Val.vStr "Ingress"]))))), none)
      | _ => (config2, some (.attributeError "object has no attribute append"))

/-- Embedding of add_ingress_rule (lines 188-216). Python mutates `config`
in place and the method body can raise after it has already appended the new
rule, so the embedding returns the document as it stands when the call ends
together with the exception that escaped, if any:
line 202-203 create `spec['ingress']` when absent, lines 205-209 build the
rule and append it, lines 212-213 then read `spec['policyTypes']`
(a KeyError when the key is absent) and append "Ingress" when missing. -/
def add_ingress_rule (config : Val) (from_selectors : List Val)
    (ports : Option (List Val)) : Val × Option PyExc :=
  match config with
  | .vDict kvs =>
    (match dictLookup kvs "spec" with
     | none => (config, some (.keyError "spec"))
     | some spec =>
       match spec with
       | .vDict skvs =>
         let rule := ingressRule from_selectors ports
         (match dictLookup skvs "ingress" with
          | some (Val.vList oldRules) =>
            afterIngressAppend kvs skvs (oldRules ++ [rule])
          | none =>
            -- line 203 creates the empty list, line 209 appends to it
            afterIngressAppend kvs skvs ([] ++ [rule])
          | some _ =>
            -- an existing non-list spec['ingress'] has no append method
            (config, some (.attributeError "object has no attribute append")))
       | _ =>
         -- non-dict spec: line 202 membership test, then line 203/209 raise
         (match pyIn (.vStr "ingress") spec with
          | .error e => (config, some e)
          | .ok false => (config, some (.typeError "object does not support item assignment"))
          | .ok true =>
            (config, some (.typeError (match spec with
              | Val.vStr _ => "string indices must be integers"
              | _ => "list indices must be integers")))))
  | _ => (config, some (.typeError "object is not subscriptable"))

/-- Outcome of opening and parsing one file with the external YAML library:
either the parser fails, or it yields a document (`none` models Python's
None result for an empty/null document). -/
inductive ParseOutcome : Type where
  | yamlError (emsg : String)
  | parsed (v : Option Val)

/-- Modelled from the spec: the external YAML parser (out of scope of the
source tree, spec section 1 and section 8 "Empty file") returns an
empty/null document for a zero-byte file, i.e. `safe_load` of empty text
yields None. -/
def parseZeroByteFile : ParseOutcome := .parsed none

/-- Embedding of load_config_from_file (lines 42-70). The filesystem is a
function from path to parse outcome, `none` meaning the file does not exist
(open raises FileNotFoundError). The raise for an empty document at line 60
happens inside the try block, so it is caught by the catch-all
`except Exception` clause at line 69 and re-raised with the wrapper message
"Error loading <path>: <original message>". -/
def load_config_from_file (fs : String → Option ParseOutcome)
    (path : String) : Except PyExc Val :=
  match fs path with
  | none =>
    .error (.configValidationError ("Configuration file not found: " ++ path))
  | some (.yamlError e) =>
    .error (.configValidationError ("Invalid YAML in " ++ path ++ ": " ++ e))
  | some (.parsed none) =>
    .error (.configValidationError
      ("Error loading " ++ path ++ ": " ++ ("Empty configuration file: " ++ path)))
  | some (.parsed (some v)) => .ok v

end ConfigManager

namespace NetPolGen

/- Embedding of sdn-everything/src/network_policies.py,
class NetworkPolicyGenerator. -/

/-- validate_policy line 109: the required top-level fields. -/
def required_fields : List String := ["apiVersion", "kind", "metadata", "spec"]

/-- validate_policy line 140: the accepted policyTypes values. -/
def valid_types : List String := ["Ingress", "Egress"]

/-- The generator expression at lines 110-111:
`all(field in policy for field in required_fields)`, short-circuiting and
propagating any exception a membership test raises. -/
def allFieldsIn (policy : Val) : List String → Except PyExc Bool
  | [] => .ok true
  | f :: rest => do
    let b ← pyIn (.vStr f) policy
    if b then allFieldsIn policy rest else .ok false

/-- The body of NetworkPolicyGenerator.validate_policy — the code inside the
try block (lines 108-147). Each early `return False` of the source is an
`.ok false`; exceptions escape as `.error`. The final subscripts model the
evaluation of `policy['metadata']['name']` in the debug-log f-string at
line 146. -/
def validatePolicyBody (policy : Val) : Except PyExc Bool := do
  let ok1 ← allFieldsIn policy required_fields
  if !ok1 then return false
  let apiV ← subscr policy "apiVersion"
  if ! valEq apiV (.vStr "networking.k8s.io/v1") then return false
  let kindV ← subscr policy "kind"
  if ! valEq kindV (.vStr "NetworkPolicy") then return false
  let metadata ← subscr policy "metadata"
  let nameV ← dictGet metadata "name"
  if ! truthy nameV then return false
  let spec ← subscr policy "spec"
  let hasPS ← pyIn (.vStr "podSelector") spec
  if !hasPS then return false
  let hasPT ← pyIn (.vStr "policyTypes") spec
  if !hasPT then return false
  let pts ← subscr spec "policyTypes"
  let items ← toIter pts
  if ! items.all (fun pt => valid_types.any (fun t => valEq pt (.vStr t))) then return false
  let _ ← subscr metadata "name"
  return true

/-- NetworkPolicyGenerator.validate_policy (lines 106-151): the try/except
wrapper around the body, mapping every escaping exception to False. -/
def validate_policy (policy : Val) : Bool :=
  match validatePolicyBody policy with
  | .ok b => b
  | .error _ => false

/-- The document built by create_isolation_policy before the validation call
(lines 42-74): the base dictionary, the conditional attachment of the rule
lists with their policy types, and the default-deny fallback when neither
rule list was supplied. -/
def buildIsolationPolicy (namespc app_label : String)
    (allowed_ingress allowed_egress : Option (List Val)) : Val :=
  let pts0 : List String :=
    (if allowed_ingress.isSome then ["Ingress"] else []) ++
      (if allowed_egress.isSome then ["Egress"] else [])
  let pts := if pts0.isEmpty then ["Ingress", "Egress"] else pts0
  .vDict [
    ("apiVersion", .vStr "networking.k8s.io/v1"),
    ("kind", .vStr "NetworkPolicy"),
    ("metadata", .vDict [
      ("name", .vStr (app_label ++ "-isolation-policy")),
      ("namespace", .vStr namespc),
      ("labels", .vDict [
        ("generated-by", .vStr "sdn-tutorial"),
        ("app", .vStr app_label)])]),
    ("spec", .vDict ([
      ("podSelector", .vDict [("matchLabels", .vDict [("app", .vStr app_label)])]),
      ("policyTypes", .vList (pts.map Val.vStr))] ++
      (match allowed_ingress with
       | some rules => [("ingress", Val.vList rules)]
       | none => []) ++
      (match allowed_egress with
       | some rules => [("egress", Val.vList rules)]
       | none => [])))]

/-- Lines 76-82 of create_isolation_policy: validate the built document;
on failure raise ValueError, on success append to self.policies and return
the document. -/
def isolationPolicyCheck (app_label : String) (policy : Val)
    (policies : List Val) : Except PyExc (Val × List Val) :=
  if validate_policy policy then .ok (policy, policies ++ [policy])
  else .error (.valueError ("Generated policy for " ++ app_label ++ " failed validation"))

/-- Embedding of create_isolation_policy (lines 23-82). `policies` is the
instance store self.policies before the call; the result pairs the returned
document with the store after the call. -/
def create_isolation_policy (namespc app_label : String)
    (allowed_ingress allowed_egress : Option (List Val))
    (policies : List Val) : Except PyExc (Val × List Val) :=
  isolationPolicyCheck app_label
    (buildIsolationPolicy namespc app_label allowed_ingress allowed_egress) policies

end NetPolGen

namespace StepValidator

/- Embedding of pytest_yaml_tutorial/examples/step4_yaml_validation.py,
class ConfigValidator (the parts claim C4 cites). -/

/-- ConfigValidator line 27: the accepted policyTypes values. -/
def valid_policy_types : List String := ["Ingress", "Egress"]

/-- The list comprehension at line 100: the policyTypes entries that are not
accepted values, in order. -/
def invalidTypes (items : List Val) : List Val :=
  items.filter (fun pt => ! valid_policy_types.any (fun t => valEq pt (.vStr t)))

/-- Lines 100-102 of validate_spec: collect all the invalid policyTypes
entries at once and raise a message listing them when there are any. -/
def checkPolicyTypesAll (items : List Val) : Except PyExc Unit :=
  if !(invalidTypes items).isEmpty then
    throw (.configValidationError
      ("Invalid policyTypes: " ++ pyRepr (Val.vList (invalidTypes items))))
  else pure ()

/-- Embedding of ConfigValidator.validate_spec (lines 79-104): fetches spec
with `.get` (default empty dict), requires it to be a dict, requires a dict
podSelector, and — when policyTypes is present — requires it to be a list
whose invalid entries, collected all at once, are empty; otherwise raises
"Invalid policyTypes: <list of the invalid entries>". -/
def validate_spec (config : Val) : Except PyExc Bool := do
  let spec ← dictGetD config "spec" (Val.vDict [])
  match spec with
  | Val.vDict _ => do
    let hasPS ← pyIn (.vStr "podSelector") spec
    if !hasPS then
      throw (.configValidationError "spec.podSelector is required")
    let podSel ← subscr spec "podSelector"
    match podSel with
    | Val.vDict _ => do
      let hasPT ← pyIn (.vStr "policyTypes") spec
      if hasPT then do
        let pts ← subscr spec "policyTypes"
        match pts with
        | Val.vList items => checkPolicyTypesAll items
        | _ => throw (.configValidationError "spec.policyTypes must be a list")
      pure true
    | _ => throw (.configValidationError "spec.podSelector must be a dictionary")
  | _ => throw (.configValidationError "spec must be a dictionary")

end StepValidator

/- Test-input documents used to settle the claims. -/

/-- A document with all four top-level fields, the correct literals, a named
metadata and a podSelector, but no spec.policyTypes key. -/
def noPolicyTypesDoc (nm ns app : String) : Val :=
  .vDict [
    ("apiVersion", .vStr "networking.k8s.io/v1"),
    ("kind", .vStr "NetworkPolicy"),
    ("metadata", .vDict [("name", .vStr nm), ("namespace", .vStr ns)]),
    ("spec", .vDict [
      ("podSelector", .vDict [("matchLabels", .vDict [("app", .vStr app)])])])]

/-- A well-formed document whose spec.policyTypes is the given list. -/
def mkPolicyTypesDoc (items : List Val) : Val :=
  .vDict [
    ("apiVersion", .vStr "networking.k8s.io/v1"),
    ("kind", .vStr "NetworkPolicy"),
    ("metadata", .vDict [("name", .vStr "test-policy")]),
    ("spec", .vDict [
      ("podSelector", .vDict []),
      ("policyTypes", .vList items)])]

/-- A pod selector value used as a concrete ingress rule source. -/
def frontendSelector : Val :=
  .vDict [("podSelector", .vDict [("matchLabels", .vDict [("app", .vStr "frontend")])])]

/- Helper lemmas about the dictionary model. -/

theorem dictLookup_dictInsert_self (l : List (String × Val)) (k : String) (v : Val) :
    dictLookup (dictInsert l k v) k = some v := by
  induction l with
  | nil => simp [dictInsert, dictLookup]
  | cons p rest ih =>
    by_cases h : p.1 = k <;> simp [dictInsert, dictLookup, h, ih]

theorem dictLookup_dictInsert_ne (l : List (String × Val)) (k k2 : String) (v : Val)
    (h : k2 ≠ k) : dictLookup (dictInsert l k v) k2 = dictLookup l k2 := by
  induction l with
  | nil =>
    simp only [dictInsert, dictLookup]
    rw [if_neg (fun hh => h hh.symm)]
  | cons p rest ih =>
    by_cases h2 : p.1 = k <;> by_cases h3 : p.1 = k2 <;>
      simp_all [dictInsert, dictLookup]

/- Helper lemmas about the embedded operations. -/

/-- The document built by create_isolation_policy always passes
validate_policy: the name always ends in the non-empty literal suffix and
every policyTypes entry the builder writes is one of the two accepted
values, so the ValueError branch at line 78 of network_policies.py is
unreachable. -/
theorem buildIsolationPolicy_validates (ns a : String) (ing eg : Option (List Val)) :
    NetPolGen.validate_policy (NetPolGen.buildIsolationPolicy ns a ing eg) = true := by
  obtain ⟨l⟩ := a
  cases l <;> rcases ing with _ | ri <;> rcases eg with _ | re <;> rfl

/-- After line 209 has appended the new rule, when spec['policyTypes'] is
present and a list the method finishes without an exception, leaving the
appended ingress list and extending policyTypes with "Ingress" exactly when
it was absent. -/
theorem afterIngressAppend_withPT (kvs skvs : List (String × Val))
    (newRules pts : List Val)
    (hpt : dictLookup skvs "policyTypes" = some (.vList pts)) :
    (ConfigManager.afterIngressAppend kvs skvs newRules).2 = none ∧
    lookupPath (ConfigManager.afterIngressAppend kvs skvs newRules).1 ["spec", "ingress"] =
      some (.vList newRules) ∧
    lookupPath (ConfigManager.afterIngressAppend kvs skvs newRules).1 ["spec", "policyTypes"] =
      some (.vList (if pts.any (fun x => valEq (.vStr "Ingress") x) then pts
                    else pts ++ [.vStr "Ingress"])) := by
  have h1 : dictLookup (dictInsert skvs "ingress" (.vList newRules)) "policyTypes" =
      some (.vList pts) := by
    rw [dictLookup_dictInsert_ne _ _ _ _ (by decide), hpt]
  refine ⟨?_, ?_, ?_⟩
  · by_cases hany : pts.any (fun x => valEq (.vStr "Ingress") x) = true <;>
      simp [ConfigManager.afterIngressAppend, h1, pyIn, hany]
  · by_cases hany : pts.any (fun x => valEq (.vStr "Ingress") x) = true
    · simp [ConfigManager.afterIngressAppend, h1, pyIn, hany,
        lookupPath, dictLookup_dictInsert_self]
    · simp only [ConfigManager.afterIngressAppend, h1, pyIn, hany, Bool.false_eq_true,
        if_false, lookupPath, dictLookup_dictInsert_self]
      try rw [dictLookup_dictInsert_ne _ _ _ _ (by decide), dictLookup_dictInsert_self]
  · by_cases hany : pts.any (fun x => valEq (.vStr "Ingress") x) = true
    · simp [ConfigManager.afterIngressAppend, h1, pyIn, hany,
        lookupPath, dictLookup_dictInsert_self]
    · simp only [ConfigManager.afterIngressAppend, h1, pyIn, hany, Bool.false_eq_true,
        if_false, lookupPath, dictLookup_dictInsert_self]
      try rw [dictLookup_dictInsert_self]
      try simp [hany]

/-- After line 209 has appended the new rule, when spec['policyTypes'] is
absent the lookup at line 212 raises KeyError, with the rule already stored. -/
theorem afterIngressAppend_noPT (kvs skvs : List (String × Val)) (newRules : List Val)
    (hnopt : dictLookup skvs "policyTypes" = none) :
    (ConfigManager.afterIngressAppend kvs skvs newRules).2 =
      some (.keyError "policyTypes") ∧
    lookupPath (ConfigManager.afterIngressAppend kvs skvs newRules).1 ["spec", "ingress"] =
      some (.vList newRules) := by
  have h1 : dictLookup (dictInsert skvs "ingress" (.vList newRules)) "policyTypes" =
      none := by
    rw [dictLookup_dictInsert_ne _ _ _ _ (by decide), hnopt]
  refine ⟨?_, ?_⟩ <;>
    simp [ConfigManager.afterIngressAppend, h1, lookupPath, dictLookup_dictInsert_self]

/-- The manager raises on the first invalid policyTypes entry: when the
invalid entries of `items` are `b :: rest`, checkPolicyTypes reports `b`
alone. -/
theorem checkPolicyTypes_first_invalid (items : List Val) (b : Val) (rest : List Val)
    (h : StepValidator.invalidTypes items = b :: rest) :
    ConfigManager.checkPolicyTypes items =
      .error (.configValidationError ("Invalid policyType: " ++ pyStr b)) := by
  induction items generalizing rest with
  | nil => simp [StepValidator.invalidTypes] at h
  | cons pt tl ih =>
    by_cases hv : ConfigManager.valid_policy_types.any (fun t => valEq pt (.vStr t)) = true
    · have hv2 : (! StepValidator.valid_policy_types.any (fun t => valEq pt (.vStr t))) = false := by
        simp [show StepValidator.valid_policy_types = ConfigManager.valid_policy_types from rfl, hv]
      rw [StepValidator.invalidTypes, List.filter_cons, if_neg (by simp [hv2])] at h
      rw [ConfigManager.checkPolicyTypes, if_pos hv]
      exact ih rest h
    · have hv2 : (! StepValidator.valid_policy_types.any (fun t => valEq pt (.vStr t))) = true := by
        simp only [show StepValidator.valid_policy_types = ConfigManager.valid_policy_types from rfl]
        simp [hv]
      rw [StepValidator.invalidTypes, List.filter_cons, if_pos (by simp [hv2])] at h
      have hb : pt = b := (List.cons.inj h).1
      rw [ConfigManager.checkPolicyTypes, if_neg hv, hb]
      rfl

/- The claims. -/

/-- C1: for every name, namespace and appLabel, the document returned by
generate_basic_policy passes validate_network_policy, its metadata.name is
the name, its metadata.namespace is the namespace, its
spec.podSelector.matchLabels.app is the appLabel, and its spec.policyTypes
is exactly the two-element list ["Ingress", "Egress"] in that order. -/
theorem claim_C1_generate_basic_policy (name namespc app_label : String) :
    ConfigManager.validate_network_policy
      (ConfigManager.generate_basic_policy name namespc app_label) = .ok true ∧
    lookupPath (ConfigManager.generate_basic_policy name namespc app_label)
      ["metadata", "name"] = some (.vStr name) ∧
    lookupPath (ConfigManager.generate_basic_policy name namespc app_label)
      ["metadata", "namespace"] = some (.vStr namespc) ∧
    lookupPath (ConfigManager.generate_basic_policy name namespc app_label)
      ["spec", "podSelector", "matchLabels", "app"] = some (.vStr app_label) ∧
    lookupPath (ConfigManager.generate_basic_policy name namespc app_label)
      ["spec", "policyTypes"] = some (.vList [.vStr "Ingress", .vStr "Egress"]) :=
  ⟨rfl, rfl, rfl, rfl, rfl⟩

/-- C3 counterexample: a document with all four top-level fields, the
correct literals, metadata.name and spec.podSelector but no spec.policyTypes
key is accepted by the manager's validate_network_policy but rejected by the
generator's validate_policy (network_policies.py lines 135-137 require the
key), so the two validators do not agree as the claim states. -/
theorem claim_C3_counterexample :
    NetPolGen.validate_policy (noPolicyTypesDoc "test-policy" "default" "web") = false ∧
    ConfigManager.validate_network_policy (noPolicyTypesDoc "test-policy" "default" "web") =
      .ok true :=
  ⟨rfl, rfl⟩

/-- C3 amended: a document with all four top-level fields, the correct
literals, a non-empty metadata.name and spec.podSelector but no
spec.policyTypes key is accepted by the manager's validate_network_policy —
its policyTypes checks apply only when the field is present — but is
rejected by the generator's validate_policy, which requires the key; the two
validators do not agree on such documents. -/
theorem claim_C3_policyTypes_optional (nm ns app : String) (hnm : nm.length ≠ 0) :
    ConfigManager.validate_network_policy (noPolicyTypesDoc nm ns app) = .ok true ∧
    NetPolGen.validate_policy (noPolicyTypesDoc nm ns app) = false := by
  obtain ⟨l⟩ := nm
  cases l with
  | nil => exact absurd rfl hnm
  | cons c t => exact ⟨rfl, rfl⟩

/-- C3 witness: the amended statement at a concrete document. -/
theorem claim_C3_policyTypes_optional_witness :
    ConfigManager.validate_network_policy (noPolicyTypesDoc "test-policy" "default" "web") =
      .ok true ∧
    NetPolGen.validate_policy (noPolicyTypesDoc "test-policy" "default" "web") = false :=
  claim_C3_policyTypes_optional "test-policy" "default" "web" (by decide)

/-- C5 counterexample: on a document that fails validation, the failure
branch of create_isolation_policy (network_policies.py line 78) raises
ValueError, not ConfigValidationError — which that module does not even
define. -/
theorem claim_C5_counterexample :
    NetPolGen.validate_policy (Val.vDict []) = false ∧
    NetPolGen.isolationPolicyCheck "web-app" (Val.vDict []) [] =
      .error (.valueError "Generated policy for web-app failed validation") ∧
    NetPolGen.isolationPolicyCheck "web-app" (Val.vDict []) [] ≠
      .error (.configValidationError "Generated policy for web-app failed validation") :=
  ⟨rfl, rfl, fun h => PyExc.noConfusion (Except.error.inj h)⟩

/-- C5 amended: when construction-time validation fails,
create_isolation_policy raises ValueError (message "Generated policy for
<appLabel> failed validation"), not ConfigValidationError; moreover the
document it builds always passes validate_policy, so that failure branch is
unreachable. -/
theorem claim_C5_failure_is_valueError (ns a : String) (ing eg : Option (List Val))
    (st : List Val) (p : Val) (h : NetPolGen.validate_policy p = false) :
    NetPolGen.isolationPolicyCheck a p st =
      .error (.valueError ("Generated policy for " ++ a ++ " failed validation")) ∧
    NetPolGen.validate_policy (NetPolGen.buildIsolationPolicy ns a ing eg) = true :=
  ⟨by simp [NetPolGen.isolationPolicyCheck, h], buildIsolationPolicy_validates ns a ing eg⟩

/-- C5 witness: the amended statement at concrete inputs. -/
theorem claim_C5_failure_is_valueError_witness :
    NetPolGen.isolationPolicyCheck "web-app" (Val.vDict []) [] =
      .error (.valueError ("Generated policy for " ++ "web-app" ++ " failed validation")) ∧
    NetPolGen.validate_policy
      (NetPolGen.buildIsolationPolicy "production" "web-app" none none) = true :=
  claim_C5_failure_is_valueError "production" "web-app" none none [] (Val.vDict []) rfl

/-- C7: validating the empty document fails with a ConfigValidationError
whose message names all four required top-level keys, not just the first
missing one. -/
theorem claim_C7_validate_empty_doc :
    ConfigManager.validate_network_policy (Val.vDict []) =
      .error (.configValidationError
        "Missing required fields: [\x27apiVersion\x27, \x27kind\x27, \x27metadata\x27, \x27spec\x27]") ∧
    (["apiVersion", "kind", "metadata", "spec"].all (fun f =>
      strContainsSub
        "Missing required fields: [\x27apiVersion\x27, \x27kind\x27, \x27metadata\x27, \x27spec\x27]"
        f)) = true :=
  ⟨rfl, rfl⟩

/-- C10: the generator's validate_policy is a total Boolean function — any
exception its body raises is caught and mapped to False, and it returns True
only when the body ran to completion with True. -/
theorem claim_C10_validate_policy_total :
    (∀ (v : Val) (e : PyExc), NetPolGen.validatePolicyBody v = .error e →
      NetPolGen.validate_policy v = false) ∧
    (∀ v : Val, NetPolGen.validate_policy v = true →
      NetPolGen.validatePolicyBody v = .ok true) := by
  constructor
  · intro v e h
    simp [NetPolGen.validate_policy, h]
  · intro v h
    unfold NetPolGen.validate_policy at h
    cases hb : NetPolGen.validatePolicyBody v with
    | ok b => rw [hb] at h; simp at h; rw [h]
    | error e => rw [hb] at h; exact absurd h (by simp)

/-- When the config is a dict whose spec is a dict and whose spec.ingress,
if present, is a list, add_ingress_rule reaches the state after line 209
with the new rule appended. -/
theorem add_ingress_rule_reduces (kvs skvs : List (String × Val))
    (oldRules fs : List Val) (ports : Option (List Val))
    (hspec : dictLookup kvs "spec" = some (.vDict skvs))
    (hing : dictLookup skvs "ingress" = some (.vList oldRules) ∨
      (dictLookup skvs "ingress" = none ∧ oldRules = [])) :
    ConfigManager.add_ingress_rule (.vDict kvs) fs ports =
      ConfigManager.afterIngressAppend kvs skvs
        (oldRules ++ [ConfigManager.ingressRule fs ports]) := by
  rcases hing with hing | ⟨hing, hnil⟩
  · simp [ConfigManager.add_ingress_rule, hspec, hing]
  · subst hnil
    simp [ConfigManager.add_ingress_rule, hspec, hing]

/-- C2 counterexample: on the generated basic policy, calling
add_ingress_rule with a supplied-but-empty ports list (`ports=[]`) yields a
rule without a ports key, because the source tests `if ports:` (Python
truthiness), not whether the argument was supplied. -/
theorem claim_C2_counterexample :
    (ConfigManager.add_ingress_rule
      (ConfigManager.generate_basic_policy "web-policy" "production" "web-app")
      [frontendSelector] (some [])).2 = none ∧
    lookupPath (ConfigManager.add_ingress_rule
      (ConfigManager.generate_basic_policy "web-policy" "production" "web-app")
      [frontendSelector] (some [])).1 ["spec", "ingress"] =
      some (.vList [.vDict [("from", .vList [frontendSelector])]]) ∧
    dictLookup [("from", Val.vList [frontendSelector])] "ports" = none :=
  ⟨rfl, rfl, rfl⟩

/-- C2 amended: for documents whose spec is a dict containing a policyTypes
list and whose spec.ingress, if present, is a list, add_ingress_rule
finishes without an exception, appends exactly one new entry to
spec.ingress (creating the list when absent) whose from equals the given
selectors and which has a ports key iff a non-empty ports list was supplied
(the code tests `if ports:`), and appends "Ingress" to spec.policyTypes
exactly when it was absent. -/
theorem claim_C2_add_ingress_rule (kvs skvs : List (String × Val))
    (pts oldRules fs : List Val) (ports : Option (List Val))
    (hspec : dictLookup kvs "spec" = some (.vDict skvs))
    (hpt : dictLookup skvs "policyTypes" = some (.vList pts))
    (hing : dictLookup skvs "ingress" = some (.vList oldRules) ∨
      (dictLookup skvs "ingress" = none ∧ oldRules = [])) :
    (ConfigManager.add_ingress_rule (.vDict kvs) fs ports).2 = none ∧
    lookupPath (ConfigManager.add_ingress_rule (.vDict kvs) fs ports).1
      ["spec", "ingress"] =
      some (.vList (oldRules ++ [ConfigManager.ingressRule fs ports])) ∧
    lookupPath (ConfigManager.add_ingress_rule (.vDict kvs) fs ports).1
      ["spec", "policyTypes"] =
      some (.vList (if pts.any (fun x => valEq (.vStr "Ingress") x) then pts
                    else pts ++ [.vStr "Ingress"])) ∧
    ConfigManager.ingressRule fs ports =
      .vDict (("from", .vList fs) ::
        (match ports with
         | some ps => if ps.isEmpty then [] else [("ports", .vList ps)]
         | none => [])) := by
  rw [add_ingress_rule_reduces kvs skvs oldRules fs ports hspec hing]
  obtain ⟨h1, h2, h3⟩ := afterIngressAppend_withPT kvs skvs _ pts hpt
  exact ⟨h1, h2, h3, rfl⟩

/-- C2 witness: the amended statement at a concrete document whose
policyTypes is ["Egress"] and whose ingress list is absent. -/
theorem claim_C2_add_ingress_rule_witness :
    (ConfigManager.add_ingress_rule
      (Val.vDict [("spec", Val.vDict [("podSelector", Val.vDict []),
        ("policyTypes", Val.vList [Val.vStr "Egress"])])])
      [frontendSelector] none).2 = none ∧
    lookupPath (ConfigManager.add_ingress_rule
      (Val.vDict [("spec", Val.vDict [("podSelector", Val.vDict []),
        ("policyTypes", Val.vList [Val.vStr "Egress"])])])
      [frontendSelector] none).1 ["spec", "ingress"] =
      some (.vList ([] ++ [ConfigManager.ingressRule [frontendSelector] none])) :=
  ⟨(claim_C2_add_ingress_rule
      [("spec", Val.vDict [("podSelector", Val.vDict []),
        ("policyTypes", Val.vList [Val.vStr "Egress"])])]
      [("podSelector", Val.vDict []), ("policyTypes", Val.vList [Val.vStr "Egress"])]
      [Val.vStr "Egress"] [] [frontendSelector] none
      rfl rfl (Or.inr ⟨rfl, rfl⟩)).1,
   (claim_C2_add_ingress_rule
      [("spec", Val.vDict [("podSelector", Val.vDict []),
        ("policyTypes", Val.vList [Val.vStr "Egress"])])]
      [("podSelector", Val.vDict []), ("policyTypes", Val.vList [Val.vStr "Egress"])]
      [Val.vStr "Egress"] [] [frontendSelector] none
      rfl rfl (Or.inr ⟨rfl, rfl⟩)).2.1⟩

/-- C9: on a document whose spec (a dict, with ingress absent or a list)
lacks the policyTypes key — which validate_network_policy accepts —
add_ingress_rule raises KeyError at line 212, after the new rule has
already been appended to spec.ingress: the failure is not atomic. -/
theorem claim_C9_add_ingress_rule_keyerror (kvs skvs : List (String × Val))
    (oldRules fs : List Val) (ports : Option (List Val))
    (hspec : dictLookup kvs "spec" = some (.vDict skvs))
    (hnopt : dictLookup skvs "policyTypes" = none)
    (hing : dictLookup skvs "ingress" = some (.vList oldRules) ∨
      (dictLookup skvs "ingress" = none ∧ oldRules = [])) :
    (ConfigManager.add_ingress_rule (.vDict kvs) fs ports).2 =
      some (.keyError "policyTypes") ∧
    lookupPath (ConfigManager.add_ingress_rule (.vDict kvs) fs ports).1
      ["spec", "ingress"] =
      some (.vList (oldRules ++ [ConfigManager.ingressRule fs ports])) := by
  rw [add_ingress_rule_reduces kvs skvs oldRules fs ports hspec hing]
  exact afterIngressAppend_noPT kvs skvs _ hnopt

/-- C9 witness: on a concrete policyTypes-less document the validator
accepts, add_ingress_rule raises KeyError with the rule already appended. -/
theorem claim_C9_add_ingress_rule_keyerror_witness :
    ConfigManager.validate_network_policy (noPolicyTypesDoc "p" "default" "web") =
      .ok true ∧
    (ConfigManager.add_ingress_rule (noPolicyTypesDoc "p" "default" "web")
      [frontendSelector] none).2 = some (.keyError "policyTypes") ∧
    lookupPath (ConfigManager.add_ingress_rule (noPolicyTypesDoc "p" "default" "web")
      [frontendSelector] none).1 ["spec", "ingress"] =
      some (.vList ([] ++ [ConfigManager.ingressRule [frontendSelector] none])) :=
  ⟨rfl,
   (claim_C9_add_ingress_rule_keyerror
      [("apiVersion", Val.vStr "networking.k8s.io/v1"),
       ("kind", Val.vStr "NetworkPolicy"),
       ("metadata", Val.vDict [("name", Val.vStr "p"), ("namespace", Val.vStr "default")]),
       ("spec", Val.vDict [("podSelector",
         Val.vDict [("matchLabels", Val.vDict [("app", Val.vStr "web")])])])]
      [("podSelector", Val.vDict [("matchLabels", Val.vDict [("app", Val.vStr "web")])])]
      [] [frontendSelector] none rfl rfl (Or.inr ⟨rfl, rfl⟩)).1,
   (claim_C9_add_ingress_rule_keyerror
      [("apiVersion", Val.vStr "networking.k8s.io/v1"),
       ("kind", Val.vStr "NetworkPolicy"),
       ("metadata", Val.vDict [("name", Val.vStr "p"), ("namespace", Val.vStr "default")]),
       ("spec", Val.vDict [("podSelector",
         Val.vDict [("matchLabels", Val.vDict [("app", Val.vStr "web")])])])]
      [("podSelector", Val.vDict [("matchLabels", Val.vDict [("app", Val.vStr "web")])])]
      [] [frontendSelector] none rfl rfl (Or.inr ⟨rfl, rfl⟩)).2⟩

/-- C4 counterexample: with spec.policyTypes = ["Foo", "Bar"], the manager
fails naming only "Foo" — its message does not mention the second invalid
element "Bar", so validation does not list all invalid elements; the step4
ConfigValidator is the one that lists both. -/
theorem claim_C4_counterexample :
    ConfigManager.validate_network_policy
      (mkPolicyTypesDoc [Val.vStr "Foo", Val.vStr "Bar"]) =
      .error (.configValidationError "Invalid policyType: Foo") ∧
    strContainsSub "Invalid policyType: Foo" "Bar" = false ∧
    StepValidator.validate_spec (mkPolicyTypesDoc [Val.vStr "Foo", Val.vStr "Bar"]) =
      .error (.configValidationError "Invalid policyTypes: [\x27Foo\x27, \x27Bar\x27]") :=
  ⟨rfl, rfl, rfl⟩

/-- C4 amended: when spec.policyTypes contains invalid elements, the
manager's validate_network_policy fails naming only the first invalid
element encountered, while step4's ConfigValidator.validate_spec fails with
a message listing all of them. -/
theorem claim_C4_first_vs_all (items : List Val) (b : Val) (rest : List Val)
    (h : StepValidator.invalidTypes items = b :: rest) :
    ConfigManager.validate_network_policy (mkPolicyTypesDoc items) =
      .error (.configValidationError ("Invalid policyType: " ++ pyStr b)) ∧
    StepValidator.validate_spec (mkPolicyTypesDoc items) =
      .error (.configValidationError
        ("Invalid policyTypes: " ++ pyRepr (.vList (b :: rest)))) := by
  constructor
  · have hred : ConfigManager.validate_network_policy (mkPolicyTypesDoc items) =
        Except.bind (ConfigManager.checkPolicyTypes items) (fun _ => Except.ok true) := rfl
    rw [hred, checkPolicyTypes_first_invalid items b rest h]
    rfl
  · have hred : StepValidator.validate_spec (mkPolicyTypesDoc items) =
        Except.bind (StepValidator.checkPolicyTypesAll items) (fun _ => Except.ok true) := rfl
    rw [hred]
    simp [StepValidator.checkPolicyTypesAll, h]
    rfl

/-- C4 amended witness: a mixed list with two invalid entries around a
valid one. -/
theorem claim_C4_first_vs_all_witness :
    ConfigManager.validate_network_policy
      (mkPolicyTypesDoc [Val.vStr "Foo", Val.vStr "Ingress", Val.vStr "Bar"]) =
      .error (.configValidationError ("Invalid policyType: " ++ pyStr (Val.vStr "Foo"))) ∧
    StepValidator.validate_spec
      (mkPolicyTypesDoc [Val.vStr "Foo", Val.vStr "Ingress", Val.vStr "Bar"]) =
      .error (.configValidationError
        ("Invalid policyTypes: " ++ pyRepr (.vList (Val.vStr "Foo" :: [Val.vStr "Bar"])))) :=
  claim_C4_first_vs_all [Val.vStr "Foo", Val.vStr "Ingress", Val.vStr "Bar"]
    (Val.vStr "Foo") [Val.vStr "Bar"] rfl

/-- C6: create_isolation_policy returns the built document and appends it to
the policies store; the document is named "<appLabel>-isolation-policy",
its policyTypes contains "Ingress" iff an ingress rule list was supplied and
"Egress" iff an egress rule list was supplied when at least one was, and
defaults to ["Ingress", "Egress"] (default-deny) when neither was. -/
theorem claim_C6_create_isolation_policy (ns a : String)
    (ing eg : Option (List Val)) (st : List Val) :
    NetPolGen.create_isolation_policy ns a ing eg st =
      .ok (NetPolGen.buildIsolationPolicy ns a ing eg,
        st ++ [NetPolGen.buildIsolationPolicy ns a ing eg]) ∧
    lookupPath (NetPolGen.buildIsolationPolicy ns a ing eg) ["metadata", "name"] =
      some (.vStr (a ++ "-isolation-policy")) ∧
    ∃ pts : List Val,
      lookupPath (NetPolGen.buildIsolationPolicy ns a ing eg) ["spec", "policyTypes"] =
        some (.vList pts) ∧
      ((ing = none ∧ eg = none) → pts = [.vStr "Ingress", .vStr "Egress"]) ∧
      ((ing.isSome ∨ eg.isSome) →
        ((Val.vStr "Ingress" ∈ pts) ↔ ing.isSome = true) ∧
        ((Val.vStr "Egress" ∈ pts) ↔ eg.isSome = true)) := by
  refine ⟨?_, ?_, ?_⟩
  · simp [NetPolGen.create_isolation_policy, NetPolGen.isolationPolicyCheck,
      buildIsolationPolicy_validates]
  · rcases ing with _ | ri <;> rcases eg with _ | re <;> rfl
  · rcases ing with _ | ri <;> rcases eg with _ | re
    · exact ⟨[.vStr "Ingress", .vStr "Egress"], rfl, fun _ => rfl, by simp⟩
    · refine ⟨[.vStr "Egress"], rfl, by simp, fun _ => ?_⟩
      constructor <;> simp
    · refine ⟨[.vStr "Ingress"], rfl, by simp, fun _ => ?_⟩
      constructor <;> simp
    · refine ⟨[.vStr "Ingress", .vStr "Egress"], rfl, by simp, fun _ => ?_⟩
      constructor <;> simp

/-- C6 witness: the default-deny case at concrete inputs. -/
theorem claim_C6_create_isolation_policy_witness :
    NetPolGen.create_isolation_policy "production" "web-app" none none [] =
      .ok (NetPolGen.buildIsolationPolicy "production" "web-app" none none,
        [] ++ [NetPolGen.buildIsolationPolicy "production" "web-app" none none]) :=
  (claim_C6_create_isolation_policy "production" "web-app" none none []).1

/-- C8 counterexample: the not-found message is
"Configuration file not found: <path>", not "<path> not found"; and the
empty-file error is re-caught by the catch-all except clause at line 69 and
re-raised as "Error loading <path>: Empty configuration file: <path>", not
the bare empty-configuration message. -/
theorem claim_C8_counterexample :
    ConfigManager.load_config_from_file (fun _ => none) "missing.yaml" =
      .error (.configValidationError "Configuration file not found: missing.yaml") ∧
    "Configuration file not found: missing.yaml" ≠ "missing.yaml not found" ∧
    ConfigManager.load_config_from_file
      (fun _ => some ConfigManager.parseZeroByteFile) "empty.yaml" =
      .error (.configValidationError
        "Error loading empty.yaml: Empty configuration file: empty.yaml") ∧
    "Error loading empty.yaml: Empty configuration file: empty.yaml" ≠
      "Empty configuration file: empty.yaml" :=
  ⟨rfl, by decide, rfl, by decide⟩

/-- C8 amended: load_config_from_file fails with three distinguishable
ConfigValidationError cases — a nonexistent path gives
"Configuration file not found: <path>", a parse failure gives
"Invalid YAML in <path>: <parser message>", and a file parsing to
empty/null (a zero-byte file included) gives
"Error loading <path>: Empty configuration file: <path>" (the
empty-configuration error, wrapped by the catch-all except clause), which
is still not a parse error. -/
theorem claim_C8_load_error_cases (fs : String → Option ConfigManager.ParseOutcome)
    (path : String) :
    (fs path = none →
      ConfigManager.load_config_from_file fs path =
        .error (.configValidationError ("Configuration file not found: " ++ path))) ∧
    (∀ e, fs path = some (.yamlError e) →
      ConfigManager.load_config_from_file fs path =
        .error (.configValidationError ("Invalid YAML in " ++ path ++ ": " ++ e))) ∧
    (fs path = some ConfigManager.parseZeroByteFile →
      ConfigManager.load_config_from_file fs path =
        .error (.configValidationError
          ("Error loading " ++ path ++ ": " ++ ("Empty configuration file: " ++ path)))) := by
  refine ⟨fun h => ?_, fun e h => ?_, fun h => ?_⟩ <;>
    simp [ConfigManager.load_config_from_file, h, ConfigManager.parseZeroByteFile]

/-- C8 witness: the three cases at concrete filesystems and paths. -/
theorem claim_C8_load_error_cases_witness :
    ConfigManager.load_config_from_file (fun _ => none) "a.yaml" =
      .error (.configValidationError ("Configuration file not found: " ++ "a.yaml")) ∧
    ConfigManager.load_config_from_file
      (fun _ => some (.yamlError "bad token")) "b.yaml" =
      .error (.configValidationError ("Invalid YAML in " ++ "b.yaml" ++ ": " ++ "bad token")) ∧
    ConfigManager.load_config_from_file
      (fun _ => some ConfigManager.parseZeroByteFile) "c.yaml" =
      .error (.configValidationError
        ("Error loading " ++ "c.yaml" ++ ": " ++ ("Empty configuration file: " ++ "c.yaml"))) :=
  ⟨(claim_C8_load_error_cases (fun _ => none) "a.yaml").1 rfl,
   (claim_C8_load_error_cases (fun _ => some (.yamlError "bad token")) "b.yaml").2.1
     "bad token" rfl,
   (claim_C8_load_error_cases
     (fun _ => some ConfigManager.parseZeroByteFile) "c.yaml").2.2 rfl⟩

/-- C10 witness: a non-dict input makes the body raise TypeError and
validate_policy return False, while the manager's validate_network_policy
propagates that TypeError on the same input instead of returning. -/
theorem claim_C10_validate_policy_total_witness :
    NetPolGen.validatePolicyBody (Val.vInt 3) =
      .error (.typeError "argument is not iterable") ∧
    NetPolGen.validate_policy (Val.vInt 3) = false ∧
    ConfigManager.validate_network_policy (Val.vInt 3) =
      .error (.typeError "argument is not iterable") :=
  ⟨rfl,
   claim_C10_validate_policy_total.1 (Val.vInt 3) (.typeError "argument is not iterable") rfl,
   rfl⟩

end SdnTutorials
